import Mathlib

/-!
Shallow embedding of `src/flask_server.py` (suivi-formation-api).

The program is a Flask service whose core is `fill_suivi_formation(data,
template_path)`: it opens a fixed-layout Word template, writes the fields of
the JSON record `data` into fixed table cells, derives an output filename and
saves the document.  Two HTTP handlers (`/fill-document`, `/test-fill`)
delegate to it and translate failures into JSON error responses.

Modelling choices:
* Python strings are Lean `String`s; `str.replace` and `str.strip` are
  re-implemented on `List Char` (`replaceLAux`, `pyStrip`) with the exact
  Python semantics used here: non-overlapping left-to-right replacement of a
  non-empty pattern, and trimming of leading/trailing whitespace.
* The document is a total cell map `Doc : Nat → Nat → Nat → String`
  (table index → row → column → cell text); a cell write is a pointwise
  update.  The spec's invariant says the template conforms to the fixed
  shape, so out-of-range index errors do not arise for the cells used.
* A record is a structure of `Option String` fields (`none` = key absent);
  `apprenants` is an optional list of learner entries.
* `datetime.now().strftime(d/m/Y)` is effectful, so the current-date string
  is passed to `fill_suivi_formation` as the explicit parameter `now`.
* The HTTP layer: `request.get_json()` is modelled as an `Option Json`
  (`none` = absent/empty body), Python truthiness of the parsed value as
  `Json.truthy`, and the filler's outcome inside the `try` block as an
  explicit `Except PyError` parameter, so that a handler's result can be
  shown independent of it.
-/

/-! ## Python string primitives -/

/-- Strip `pat` from the front of `l`: `some rest` iff `l = pat ++ rest`. -/
def stripPre : List Char → List Char → Option (List Char)
  | [], l => some l
  | _ :: _, [] => none
  | p :: ps, c :: cs => if c = p then stripPre ps cs else none

/-- Fuelled worker for Python `str.replace`: scan left to right, replacing
each non-overlapping occurrence of `pat` by `rep`.  The fuel (initially the
length of the string) bounds the recursion; one unit is spent per step and
each step consumes at least one character when `pat` is non-empty, so the
fuel never runs out in actual use. -/
def replaceLAux (pat rep : List Char) : Nat → List Char → List Char
  | _, [] => []
  | 0, l => l
  | fuel + 1, c :: cs =>
    match stripPre pat (c :: cs) with
    | some rest => rep ++ replaceLAux pat rep fuel rest
    | none => c :: replaceLAux pat rep fuel cs

/-- Python `s.replace(pat, rep)` (for the non-empty patterns this program uses). -/
def pyReplace (s pat rep : String) : String :=
  String.mk (replaceLAux pat.data rep.data s.data.length s.data)

/-- Python whitespace for `str.strip`: space, tab, newline, carriage return,
vertical tab, form feed. -/
def pyIsSpace (c : Char) : Bool :=
  c = ' ' || c = '\t' || c = '\n' || c = '\x0d' || c = '\x0b' || c = '\x0c'

/-- Python `s.strip()`: drop leading and trailing whitespace. -/
def pyStrip (s : String) : String :=
  String.mk (((s.data.dropWhile pyIsSpace).reverse.dropWhile pyIsSpace).reverse)

/-! ## Data model -/

/-- One learner entry of the `apprenants` sequence (all keys optional). -/
structure Apprenant where
  nom : Option String
  prenom : Option String
  observation : Option String
deriving DecidableEq

/-- The Training Report Record: the JSON body, each key optionally present. -/
structure Record where
  affectation : Option String := none
  semaine : Option String := none
  formateur : Option String := none
  referent : Option String := none
  horaires : Option String := none
  numero_action : Option String := none
  date_redaction : Option String := none
  observations_groupe : Option String := none
  themes_modules : Option String := none
  previsions : Option String := none
  apprenants : Option (List Apprenant) := none
deriving DecidableEq

/-- A document as a total cell map: table index → row → column → cell text. -/
abbrev Doc := Nat → Nat → Nat → String

/-- Write text `v` into cell (`t`,`r`,`c`); python-docx `cell.text = v`
fully replaces the prior text. -/
def setCell (t r c : Nat) (v : String) (d : Doc) : Doc :=
  fun t' r' c' => if t' = t ∧ r' = r ∧ c' = c then v else d t' r' c'

/-- Conditional write: the Python `if key in data: cell.text = data[key]`
pattern — write when the field is present, leave the cell untouched when
absent. -/
def setOpt (t r c : Nat) (v : Option String) (d : Doc) : Doc :=
  match v with
  | some s => setCell t r c s d
  | none => d

/-! ## The Document Filler -/

/-- Body of the `apprenants` loop for one entry: row `row` of table 3 gets
`nom` in column 0, `prenom` in column 1, `observation` in column 2, each
only when present. -/
def fillApprenant (row : Nat) (a : Apprenant) (d : Doc) : Doc :=
  setOpt 3 row 2 a.observation (setOpt 3 row 1 a.prenom (setOpt 3 row 0 a.nom d))

/-- `for i, apprenant in enumerate(...)`: entry at enumeration index `i`
goes to row `i + 1` (row 0 is the header). -/
def fillApprenantsFrom : Nat → List Apprenant → Doc → Doc
  | _, [], d => d
  | i, a :: rest, d => fillApprenantsFrom (i + 1) rest (fillApprenant (i + 1) a d)

/-- The `if 'apprenants' in data` block: iterate `apprenants[:9]`. -/
def fillApprOpt (o : Option (List Apprenant)) (d : Doc) : Doc :=
  match o with
  | some l => fillApprenantsFrom 0 (l.take 9) d
  | none => d

/-- The table-0 writes of `fill_suivi_formation`, in source order (innermost
first): rows 0–8, column 1.  Row 7 is written unconditionally:
`date_redaction` when present, else the current date string `now`. -/
def fillTable0 (rec : Record) (now : String) (d : Doc) : Doc :=
  setOpt 0 8 1 rec.observations_groupe
  (setCell 0 7 1 (rec.date_redaction.getD now)
  (setOpt 0 6 1 rec.numero_action
  (setOpt 0 5 1 rec.horaires
  (setOpt 0 4 1 rec.referent
  (setOpt 0 3 1 rec.formateur
  (setOpt 0 2 1 rec.semaine
  (setOpt 0 1 1 rec.affectation
  (setOpt 0 0 1 rec.affectation d))))))))

/-- The table-2 writes: rows 0–1, column 1. -/
def fillTable2 (rec : Record) (d : Doc) : Doc :=
  setOpt 2 1 1 rec.previsions (setOpt 2 0 1 rec.themes_modules d)

/-- All table-cell writes of `fill_suivi_formation`, in source order:
table 0, then table 2, then the `apprenants` loop on table 3. -/
def fillTables (rec : Record) (now : String) (d : Doc) : Doc :=
  fillApprOpt rec.apprenants (fillTable2 rec (fillTable0 rec now d))

/-- `data.get('semaine', '').replace('Du ', '').replace(' au ', '_au_')
.replace('/', '-').replace(' ', '_').strip()` applied to a present value. -/
def semaine_clean (s : String) : String :=
  pyStrip (pyReplace (pyReplace (pyReplace (pyReplace s "Du " "") " au " "_au_") "/" "-") " " "_")

/-- `data.get('affectation', 'FORMATION').replace('/', '-').replace(' ', '_')`
applied to a present value. -/
def affectation_clean (s : String) : String :=
  pyReplace (pyReplace s "/" "-") " " "_"

/-- The f-string `SUIVI_FORMATION_{affectation}_{semaine}.docx`. -/
def output_filename (rec : Record) : String :=
  "SUIVI_FORMATION_" ++ affectation_clean (rec.affectation.getD "FORMATION")
    ++ "_" ++ semaine_clean (rec.semaine.getD "") ++ ".docx"

/-- `fill_suivi_formation(data, template_path)`: mutate the document cells
and return it together with the derived output filename.  (The save path is
the temp directory joined with the filename; the path/save step is I/O and
outside the cell-level model.) -/
def fill_suivi_formation (rec : Record) (now : String) (d : Doc) : Doc × String :=
  (fillTables rec now d, output_filename rec)

/-- The set of cells `fill_suivi_formation` may write: table 0 rows 0–8
column 1, table 2 rows 0–1 column 1, table 3 rows 1–9 columns 0–2. -/
def writtenCell (t r c : Nat) : Prop :=
  (t = 0 ∧ r ≤ 8 ∧ c = 1) ∨ (t = 2 ∧ r ≤ 1 ∧ c = 1)
    ∨ (t = 3 ∧ 1 ≤ r ∧ r ≤ 9 ∧ c ≤ 2)

instance (t r c : Nat) : Decidable (writtenCell t r c) := by
  unfold writtenCell; infer_instance

/-! ## HTTP layer -/

/-- A parsed JSON value, as far as Python truthiness distinguishes them. -/
inductive Json where
  | null
  | bool (b : Bool)
  | num (n : Int)
  | str (s : String)
  | arr (elems : List Json)
  | obj (fields : List (String × Json))

/-- Python truthiness of a parsed JSON value: `None`, `False`, `0`, `""`,
`[]` and `{}` are falsy, everything else truthy. -/
def Json.truthy : Json → Bool
  | .null => false
  | .bool b => b
  | .num n => decide (n ≠ 0)
  | .str s => decide (s ≠ "")
  | .arr l => !l.isEmpty
  | .obj l => !l.isEmpty

/-- A Python exception as the handlers observe it: `str(e)` and
`type(e).__name__`. -/
structure PyError where
  msg : String
  ty : String
deriving DecidableEq

/-- An HTTP response of this service. -/
inductive Response where
  | ok (path filename : String)
  | badRequest (error : String)
  | serverError (error ty : String)
deriving DecidableEq

/-- HTTP status code of a response. -/
def Response.status : Response → Nat
  | .ok _ _ => 200
  | .badRequest _ => 400
  | .serverError _ _ => 500

/-- `request.get_json()` followed by Python `not data`: absent body and
falsy parsed values are rejected alike. -/
def getJsonFalsy : Option Json → Bool
  | none => true
  | some d => !d.truthy

/-- The `/fill-document` handler.  `body` is the parsed request body
(`none` when absent/empty); `filler` is the outcome of
`fill_suivi_formation(data, TEMPLATE_PATH)` for this request — `ok` with
(output path, filename) or `error` with the raised exception, which the
`except` block turns into a 500 JSON response. -/
def fill_document (body : Option Json) (filler : Except PyError (String × String)) :
    Response :=
  if getJsonFalsy body then
    Response.badRequest "Aucune donnée fournie"
  else
    match filler with
    | .ok (path, filename) => Response.ok path filename
    | .error e => Response.serverError e.msg e.ty

/-- The `/test-fill` handler: no body check, it runs the filler on the
built-in sample record and has the same `except` block. -/
def test_fill (filler : Except PyError (String × String)) : Response :=
  match filler with
  | .ok (path, filename) => Response.ok path filename
  | .error e => Response.serverError e.msg e.ty

/-- Modelled from the spec: the document library's failure when
`TEMPLATE_PATH` does not exist is outside `src/`; per the spec the filler
"Fails with a TemplateNotFound/TemplateOpenError kind if the path is
missing", surfaced with the exception's message and kind name. -/
def templateOpenError (path : String) : PyError :=
  { msg := "Package not found at " ++ path, ty := "PackageNotFoundError" }

/-! ## Spec-side definitions (for refinement comparison) -/

/-- The semaine filename transform as claim C1 words it: the literal
*prefix* `Du ` is stripped *if present* (rather than every occurrence
replaced), then ` au ` → `_au_`, `/` → `-`, space → `_`, then trim. -/
def semaine_clean_claim (s : String) : String :=
  let s1 := match stripPre "Du ".data s.data with
    | some rest => String.mk rest
    | none => s
  pyStrip (pyReplace (pyReplace (pyReplace s1 " au " "_au_") "/" "-") " " "_")

/-! ## Concrete fixtures -/

/-- A record with every key absent. -/
def emptyRecord : Record := {}

/-- The record of the spec's §8 filename example. -/
def recordC3 : Record :=
  { affectation := some "CAP 2 OLBER", semaine := some "Du 24/03/2025 au 26/03/2025" }

/-- A record whose `semaine` contains `Du ` in the middle rather than as a
prefix. -/
def recordC1 : Record := { semaine := some "a Du b" }

/-- A concrete template document: every cell holds the placeholder text
`TPL t r c`. -/
def docA : Doc := fun t r c =>
  "TPL " ++ toString t ++ " " ++ toString r ++ " " ++ toString c

/-- A learner entry with `observation` absent. -/
def apprA : Apprenant := { nom := some "DUPONT", prenom := some "Jean", observation := none }

/-- A learner entry with `nom` absent. -/
def apprB : Apprenant := { nom := none, prenom := some "Sophie", observation := some "ok" }

/-- A record whose only present key is a two-entry `apprenants` sequence. -/
def recordC4 : Record := { apprenants := some [apprA, apprB] }

/-! ## Cell-level lemmas -/

theorem setCell_ne (t r c : Nat) (v : String) (d : Doc) (t' r' c' : Nat)
    (h : ¬(t' = t ∧ r' = r ∧ c' = c)) : setCell t r c v d t' r' c' = d t' r' c' := by
  simp [setCell, h]

theorem setCell_self (t r c : Nat) (v : String) (d : Doc) :
    setCell t r c v d t r c = v := by
  simp [setCell]

theorem setOpt_ne (t r c : Nat) (v : Option String) (d : Doc) (t' r' c' : Nat)
    (h : ¬(t' = t ∧ r' = r ∧ c' = c)) : setOpt t r c v d t' r' c' = d t' r' c' := by
  cases v <;> simp [setOpt, setCell, h]

theorem setOpt_self (t r c : Nat) (v : Option String) (d : Doc) :
    setOpt t r c v d t r c = v.getD (d t r c) := by
  cases v <;> simp [setOpt, setCell]

theorem fillApprenant_ne (row : Nat) (a : Apprenant) (d : Doc) (t r c : Nat)
    (h : ¬(t = 3 ∧ r = row ∧ c ≤ 2)) : fillApprenant row a d t r c = d t r c := by
  unfold fillApprenant
  rw [setOpt_ne, setOpt_ne, setOpt_ne] <;> omega

theorem fillApprenant_col0 (row : Nat) (a : Apprenant) (d : Doc) :
    fillApprenant row a d 3 row 0 = a.nom.getD (d 3 row 0) := by
  unfold fillApprenant
  rw [setOpt_ne, setOpt_ne, setOpt_self] <;> omega

theorem fillApprenant_col1 (row : Nat) (a : Apprenant) (d : Doc) :
    fillApprenant row a d 3 row 1 = a.prenom.getD (d 3 row 1) := by
  unfold fillApprenant
  rw [setOpt_ne, setOpt_self, setOpt_ne] <;> omega

theorem fillApprenant_col2 (row : Nat) (a : Apprenant) (d : Doc) :
    fillApprenant row a d 3 row 2 = a.observation.getD (d 3 row 2) := by
  unfold fillApprenant
  rw [setOpt_self, setOpt_ne, setOpt_ne] <;> omega

theorem fillApprenantsFrom_frame (l : List Apprenant) (i : Nat) (d : Doc) (t r c : Nat)
    (h : ¬(t = 3 ∧ i + 1 ≤ r ∧ r ≤ i + l.length ∧ c ≤ 2)) :
    fillApprenantsFrom i l d t r c = d t r c := by
  induction l generalizing i d with
  | nil => rfl
  | cons a rest ih =>
    simp only [List.length_cons] at h
    show fillApprenantsFrom (i + 1) rest (fillApprenant (i + 1) a d) t r c = d t r c
    rw [ih (i + 1) _ (by omega)]
    exact fillApprenant_ne _ _ _ _ _ _ (by omega)

theorem fillApprenantsFrom_row (l : List Apprenant) (i j : Nat) (hj : j < l.length)
    (d : Doc) :
    fillApprenantsFrom i l d 3 (i + 1 + j) 0
        = ((l.get ⟨j, hj⟩).nom).getD (d 3 (i + 1 + j) 0)
      ∧ fillApprenantsFrom i l d 3 (i + 1 + j) 1
        = ((l.get ⟨j, hj⟩).prenom).getD (d 3 (i + 1 + j) 1)
      ∧ fillApprenantsFrom i l d 3 (i + 1 + j) 2
        = ((l.get ⟨j, hj⟩).observation).getD (d 3 (i + 1 + j) 2) := by
  induction l generalizing i j d with
  | nil => exact absurd hj (by simp)
  | cons a rest ih =>
    cases j with
    | zero =>
      refine ⟨?_, ?_, ?_⟩
      · show fillApprenantsFrom (i + 1) rest (fillApprenant (i + 1) a d) 3 (i + 1 + 0) 0 = _
        rw [fillApprenantsFrom_frame rest (i + 1) _ 3 (i + 1 + 0) 0 (by omega)]
        exact fillApprenant_col0 (i + 1) a d
      · show fillApprenantsFrom (i + 1) rest (fillApprenant (i + 1) a d) 3 (i + 1 + 0) 1 = _
        rw [fillApprenantsFrom_frame rest (i + 1) _ 3 (i + 1 + 0) 1 (by omega)]
        exact fillApprenant_col1 (i + 1) a d
      · show fillApprenantsFrom (i + 1) rest (fillApprenant (i + 1) a d) 3 (i + 1 + 0) 2 = _
        rw [fillApprenantsFrom_frame rest (i + 1) _ 3 (i + 1 + 0) 2 (by omega)]
        exact fillApprenant_col2 (i + 1) a d
    | succ j' =>
      have hj' : j' < rest.length := by simp only [List.length_cons] at hj; omega
      have hne : ∀ col, fillApprenant (i + 1) a d 3 (i + 1 + 1 + j') col
          = d 3 (i + 1 + 1 + j') col := fun col =>
        fillApprenant_ne (i + 1) a d 3 (i + 1 + 1 + j') col (by omega)
      have h3 := ih (i + 1) j' hj' (fillApprenant (i + 1) a d)
      have e : i + 1 + (j' + 1) = i + 1 + 1 + j' := by omega
      refine ⟨?_, ?_, ?_⟩
      · show fillApprenantsFrom (i + 1) rest (fillApprenant (i + 1) a d) 3 (i + 1 + (j' + 1)) 0
          = ((rest.get ⟨j', hj'⟩).nom).getD (d 3 (i + 1 + (j' + 1)) 0)
        rw [e, h3.1, hne 0]
      · show fillApprenantsFrom (i + 1) rest (fillApprenant (i + 1) a d) 3 (i + 1 + (j' + 1)) 1
          = ((rest.get ⟨j', hj'⟩).prenom).getD (d 3 (i + 1 + (j' + 1)) 1)
        rw [e, h3.2.1, hne 1]
      · show fillApprenantsFrom (i + 1) rest (fillApprenant (i + 1) a d) 3 (i + 1 + (j' + 1)) 2
          = ((rest.get ⟨j', hj'⟩).observation).getD (d 3 (i + 1 + (j' + 1)) 2)
        rw [e, h3.2.2, hne 2]

theorem fillApprOpt_frame (o : Option (List Apprenant)) (d : Doc) (t r c : Nat)
    (h : ¬(t = 3 ∧ 1 ≤ r ∧ r ≤ 9 ∧ c ≤ 2)) : fillApprOpt o d t r c = d t r c := by
  cases o with
  | none => rfl
  | some l =>
    refine fillApprenantsFrom_frame (l.take 9) 0 d t r c ?_
    have := l.length_take 9
    omega

theorem fillTable0_ne (rec : Record) (now : String) (d : Doc) (t r c : Nat)
    (h : ¬(t = 0 ∧ r ≤ 8 ∧ c = 1)) : fillTable0 rec now d t r c = d t r c := by
  unfold fillTable0
  rw [setOpt_ne, setCell_ne, setOpt_ne, setOpt_ne, setOpt_ne, setOpt_ne, setOpt_ne,
    setOpt_ne, setOpt_ne] <;> omega

theorem fillTable2_ne (rec : Record) (d : Doc) (t r c : Nat)
    (h : ¬(t = 2 ∧ r ≤ 1 ∧ c = 1)) : fillTable2 rec d t r c = d t r c := by
  unfold fillTable2
  rw [setOpt_ne, setOpt_ne] <;> omega

theorem fillTables_frame (rec : Record) (now : String) (d : Doc) (t r c : Nat)
    (h : ¬ writtenCell t r c) : fillTables rec now d t r c = d t r c := by
  unfold writtenCell at h
  unfold fillTables
  rw [fillApprOpt_frame, fillTable2_ne, fillTable0_ne] <;> omega

theorem inner_t3 (rec : Record) (now : String) (d : Doc) (r c : Nat) :
    fillTable2 rec (fillTable0 rec now d) 3 r c = d 3 r c := by
  rw [fillTable2_ne, fillTable0_ne] <;> omega

theorem fillTables_00 (rec : Record) (now : String) (d : Doc) :
    fillTables rec now d 0 0 1 = rec.affectation.getD (d 0 0 1) := by
  simp [fillTables, fillTable2, fillTable0, fillApprOpt_frame, setOpt_ne, setCell_ne,
    setOpt_self, setCell_self]

theorem fillTables_01 (rec : Record) (now : String) (d : Doc) :
    fillTables rec now d 0 1 1 = rec.affectation.getD (d 0 1 1) := by
  simp [fillTables, fillTable2, fillTable0, fillApprOpt_frame, setOpt_ne, setCell_ne,
    setOpt_self, setCell_self]

theorem fillTables_02 (rec : Record) (now : String) (d : Doc) :
    fillTables rec now d 0 2 1 = rec.semaine.getD (d 0 2 1) := by
  simp [fillTables, fillTable2, fillTable0, fillApprOpt_frame, setOpt_ne, setCell_ne,
    setOpt_self, setCell_self]

theorem fillTables_03 (rec : Record) (now : String) (d : Doc) :
    fillTables rec now d 0 3 1 = rec.formateur.getD (d 0 3 1) := by
  simp [fillTables, fillTable2, fillTable0, fillApprOpt_frame, setOpt_ne, setCell_ne,
    setOpt_self, setCell_self]

theorem fillTables_04 (rec : Record) (now : String) (d : Doc) :
    fillTables rec now d 0 4 1 = rec.referent.getD (d 0 4 1) := by
  simp [fillTables, fillTable2, fillTable0, fillApprOpt_frame, setOpt_ne, setCell_ne,
    setOpt_self, setCell_self]

theorem fillTables_05 (rec : Record) (now : String) (d : Doc) :
    fillTables rec now d 0 5 1 = rec.horaires.getD (d 0 5 1) := by
  simp [fillTables, fillTable2, fillTable0, fillApprOpt_frame, setOpt_ne, setCell_ne,
    setOpt_self, setCell_self]

theorem fillTables_06 (rec : Record) (now : String) (d : Doc) :
    fillTables rec now d 0 6 1 = rec.numero_action.getD (d 0 6 1) := by
  simp [fillTables, fillTable2, fillTable0, fillApprOpt_frame, setOpt_ne, setCell_ne,
    setOpt_self, setCell_self]

theorem fillTables_07 (rec : Record) (now : String) (d : Doc) :
    fillTables rec now d 0 7 1 = rec.date_redaction.getD now := by
  simp [fillTables, fillTable2, fillTable0, fillApprOpt_frame, setOpt_ne, setCell_ne,
    setOpt_self, setCell_self]

theorem fillTables_08 (rec : Record) (now : String) (d : Doc) :
    fillTables rec now d 0 8 1 = rec.observations_groupe.getD (d 0 8 1) := by
  simp [fillTables, fillTable2, fillTable0, fillApprOpt_frame, setOpt_ne, setCell_ne,
    setOpt_self, setCell_self]

theorem fillTables_20 (rec : Record) (now : String) (d : Doc) :
    fillTables rec now d 2 0 1 = rec.themes_modules.getD (d 2 0 1) := by
  simp [fillTables, fillTable2, fillTable0, fillApprOpt_frame, setOpt_ne, setCell_ne,
    setOpt_self, setCell_self]

theorem fillTables_21 (rec : Record) (now : String) (d : Doc) :
    fillTables rec now d 2 1 1 = rec.previsions.getD (d 2 1 1) := by
  simp [fillTables, fillTable2, fillTable0, fillApprOpt_frame, setOpt_ne, setCell_ne,
    setOpt_self, setCell_self]

theorem fillTables_t3_row (rec : Record) (now : String) (d : Doc) (l : List Apprenant)
    (hl : rec.apprenants = some l) (j : Nat) (hj : j < l.length) (hj9 : j < 9) :
    fillTables rec now d 3 (j + 1) 0 = ((l.get ⟨j, hj⟩).nom).getD (d 3 (j + 1) 0)
      ∧ fillTables rec now d 3 (j + 1) 1 = ((l.get ⟨j, hj⟩).prenom).getD (d 3 (j + 1) 1)
      ∧ fillTables rec now d 3 (j + 1) 2
        = ((l.get ⟨j, hj⟩).observation).getD (d 3 (j + 1) 2) := by
  have hj9' : j < (l.take 9).length := by rw [List.length_take]; omega
  have hrow := fillApprenantsFrom_row (l.take 9) 0 j hj9'
    (fillTable2 rec (fillTable0 rec now d))
  have e : 0 + 1 + j = j + 1 := by omega
  rw [e] at hrow
  have hget : (l.take 9).get ⟨j, hj9'⟩ = l.get ⟨j, hj⟩ := by
    simp [List.getElem_take]
  rw [hget] at hrow
  simp only [fillTables, hl, fillApprOpt]
  rw [hrow.1, hrow.2.1, hrow.2.2, inner_t3, inner_t3, inner_t3]
  exact ⟨rfl, rfl, rfl⟩

theorem fillTables_t3_beyond (rec : Record) (now : String) (d : Doc) (l : List Apprenant)
    (hl : rec.apprenants = some l) (row c : Nat) (h : min l.length 9 < row) :
    fillTables rec now d 3 row c = d 3 row c := by
  simp only [fillTables, hl, fillApprOpt]
  rw [fillApprenantsFrom_frame]
  · exact inner_t3 rec now d row c
  · have := List.length_take 9 l
    omega

theorem fillTables_t3_none (rec : Record) (now : String) (d : Doc)
    (hl : rec.apprenants = none) (row c : Nat) :
    fillTables rec now d 3 row c = d 3 row c := by
  simp only [fillTables, hl, fillApprOpt]
  exact inner_t3 rec now d row c

/-! ## Claims -/

/-- C1 (counterexample): the claim says the filename's semaine transform
strips the literal *prefix* `Du ` if present.  The code instead runs
`.replace('Du ', '')`, which removes *every* occurrence.  On the record
with `semaine = "a Du b"` (no `Du ` prefix) the code produces the filename
component `a_b`, while the claim's prefix-only strip would produce
`a_Du_b`; so the claim, read over all records with `semaine` present, is
false. -/
theorem c1_prefix_strip_counterexample :
    (fill_suivi_formation recordC1 "26/03/2025" docA).2
        = "SUIVI_FORMATION_FORMATION_a_b.docx"
      ∧ "SUIVI_FORMATION_" ++ affectation_clean (recordC1.affectation.getD "FORMATION")
          ++ "_" ++ semaine_clean_claim "a Du b" ++ ".docx"
        = "SUIVI_FORMATION_FORMATION_a_Du_b.docx"
      ∧ semaine_clean "a Du b" ≠ semaine_clean_claim "a Du b" := by
  refine ⟨by decide, by decide, by decide⟩

/-- C1 (amended): for every record in which `semaine` is present, the
semaine component of the derived output filename is obtained by applying
exactly this sequence of transforms: every occurrence of the literal
substring `Du ` is removed (not only a leading prefix), then the literal
substring ` au ` is replaced with `_au_`, then every `/` is replaced with
`-`, then every space is replaced with `_`, then leading/trailing
whitespace is trimmed. -/
theorem c1_semaine_transform_amended (rec : Record) (s : String)
    (h : rec.semaine = some s) (now : String) (d : Doc) :
    (fill_suivi_formation rec now d).2
      = "SUIVI_FORMATION_" ++ affectation_clean (rec.affectation.getD "FORMATION") ++ "_"
        ++ pyStrip (pyReplace (pyReplace (pyReplace (pyReplace s "Du " "") " au " "_au_")
            "/" "-") " " "_") ++ ".docx" := by
  show output_filename rec = _
  rw [output_filename, h]
  rfl

/-- C1 witness: the amended transform at the spec's own example. -/
theorem c1_semaine_transform_amended_witness :
    (fill_suivi_formation recordC3 "26/03/2025" docA).2
      = "SUIVI_FORMATION_" ++ affectation_clean (recordC3.affectation.getD "FORMATION")
        ++ "_" ++ pyStrip (pyReplace (pyReplace (pyReplace
            (pyReplace "Du 24/03/2025 au 26/03/2025" "Du " "") " au " "_au_")
            "/" "-") " " "_") ++ ".docx" :=
  c1_semaine_transform_amended recordC3 "Du 24/03/2025 au 26/03/2025" rfl "26/03/2025" docA

/-- C2: for every record the returned filename is
`SUIVI_FORMATION_{affectation}_{semaine}.docx`, with the affectation
component the present value (else the literal `FORMATION`) after `/` → `-`
and then space → `_`; with both `affectation` and `semaine` absent the
filename is exactly `SUIVI_FORMATION_FORMATION_.docx`. -/
theorem c2_output_filename_shape :
    (∀ (rec : Record) (now : String) (d : Doc),
        (fill_suivi_formation rec now d).2
          = "SUIVI_FORMATION_"
            ++ pyReplace (pyReplace (rec.affectation.getD "FORMATION") "/" "-") " " "_"
            ++ "_" ++ semaine_clean (rec.semaine.getD "") ++ ".docx")
      ∧ (∀ (rec : Record) (now : String) (d : Doc),
          rec.affectation = none → rec.semaine = none →
          (fill_suivi_formation rec now d).2 = "SUIVI_FORMATION_FORMATION_.docx") := by
  refine ⟨fun rec now d => rfl, fun rec now d hA hS => ?_⟩
  show output_filename rec = _
  rw [output_filename, hA, hS]
  decide

/-- C2 witness: the empty record yields `SUIVI_FORMATION_FORMATION_.docx`. -/
theorem c2_output_filename_shape_witness :
    (fill_suivi_formation emptyRecord "26/03/2025" docA).2
      = "SUIVI_FORMATION_FORMATION_.docx" :=
  c2_output_filename_shape.2 emptyRecord "26/03/2025" docA rfl rfl

/-- C3: on the record with `affectation = "CAP 2 OLBER"` and
`semaine = "Du 24/03/2025 au 26/03/2025"` the derived filename is exactly
`SUIVI_FORMATION_CAP_2_OLBER_24-03-2025_au_26-03-2025.docx`, and the
derivation is a pure deterministic function of the record: it does not
depend on the template document or the current date, so two calls on the
same record yield the same filename. -/
theorem c3_concrete_filename_deterministic (now now' : String) (d d' : Doc) :
    (fill_suivi_formation recordC3 now d).2
        = "SUIVI_FORMATION_CAP_2_OLBER_24-03-2025_au_26-03-2025.docx"
      ∧ (fill_suivi_formation recordC3 now d).2 = (fill_suivi_formation recordC3 now' d').2 := by
  constructor
  · show output_filename recordC3 = _
    decide
  · rfl

/-- C4: with `apprenants` present holding `l`, each entry `j < min (N, 9)`
is written to row `j + 1` of table 3 — `nom` to column 0, `prenom` to
column 1, `observation` to column 2, each verbatim when present and the
cell untouched when absent (`Option.getD` of the prior cell); rows beyond
`min (N, 9)` are untouched, so entries past index 8 are silently dropped
and `N = 0` changes no learner row; the header row 0 is untouched; with
`apprenants` absent no cell of table 3 changes. -/
theorem c4_apprenants_rows (rec : Record) (now : String) (d : Doc) :
    (∀ l, rec.apprenants = some l →
      (∀ j (hj : j < l.length), j < 9 →
        (fill_suivi_formation rec now d).1 3 (j + 1) 0
            = ((l.get ⟨j, hj⟩).nom).getD (d 3 (j + 1) 0)
          ∧ (fill_suivi_formation rec now d).1 3 (j + 1) 1
            = ((l.get ⟨j, hj⟩).prenom).getD (d 3 (j + 1) 1)
          ∧ (fill_suivi_formation rec now d).1 3 (j + 1) 2
            = ((l.get ⟨j, hj⟩).observation).getD (d 3 (j + 1) 2))
        ∧ (∀ row c, min l.length 9 < row →
            (fill_suivi_formation rec now d).1 3 row c = d 3 row c)
        ∧ (∀ c, (fill_suivi_formation rec now d).1 3 0 c = d 3 0 c))
      ∧ (rec.apprenants = none →
          ∀ row c, (fill_suivi_formation rec now d).1 3 row c = d 3 row c) := by
  refine ⟨fun l hl => ⟨fun j hj hj9 => fillTables_t3_row rec now d l hl j hj hj9,
    fun row c h => fillTables_t3_beyond rec now d l hl row c h,
    fun c => fillTables_frame rec now d 3 0 c ?_⟩,
    fun hl row c => fillTables_t3_none rec now d hl row c⟩
  unfold writtenCell
  omega

/-- C4 witness: on a two-entry `apprenants` list, entry 0's present `nom`
lands in row 1 column 0, entry 1's absent `nom` leaves row 2 column 0 at
the template text, and row 3 (beyond `min (2, 9)`) is untouched. -/
theorem c4_apprenants_rows_witness :
    (fill_suivi_formation recordC4 "26/03/2025" docA).1 3 1 0 = "DUPONT"
      ∧ (fill_suivi_formation recordC4 "26/03/2025" docA).1 3 2 0 = docA 3 2 0
      ∧ (fill_suivi_formation recordC4 "26/03/2025" docA).1 3 3 1 = docA 3 3 1 := by
  refine ⟨?_, ?_, ?_⟩
  · exact (((c4_apprenants_rows recordC4 "26/03/2025" docA).1 [apprA, apprB] rfl).1
      0 (by decide) (by decide)).1.trans (by decide)
  · exact (((c4_apprenants_rows recordC4 "26/03/2025" docA).1 [apprA, apprB] rfl).1
      1 (by decide) (by decide)).1.trans (by decide)
  · exact ((c4_apprenants_rows recordC4 "26/03/2025" docA).1 [apprA, apprB] rfl).2.1
      3 1 (by decide)

/-- C5: after the fill, the cell at table 0 row 7 column 1 holds
`date_redaction` verbatim when present and otherwise the current-date
string `now` (which the code computes as `datetime.now().strftime` with
the day/month/year format); and on a record with every field absent the
only cell that changes is exactly this one, so `date_redaction` is the
only field whose absence causes a cell write. -/
theorem c5_date_redaction_cell (rec : Record) (now : String) (d : Doc) :
    ((fill_suivi_formation rec now d).1 0 7 1 = rec.date_redaction.getD now)
      ∧ (∀ t r c, ¬(t = 0 ∧ r = 7 ∧ c = 1) →
          (fill_suivi_formation emptyRecord now d).1 t r c = d t r c) := by
  refine ⟨fillTables_07 rec now d, fun t r c h => ?_⟩
  by_cases hw : writtenCell t r c
  · unfold writtenCell at hw
    rcases hw with ⟨ht, hr, hc⟩ | ⟨ht, hr, hc⟩ | ⟨ht, hr1, hr9, hc⟩
    · subst ht; subst hc
      interval_cases r
      · exact (fillTables_00 emptyRecord now d).trans rfl
      · exact (fillTables_01 emptyRecord now d).trans rfl
      · exact (fillTables_02 emptyRecord now d).trans rfl
      · exact (fillTables_03 emptyRecord now d).trans rfl
      · exact (fillTables_04 emptyRecord now d).trans rfl
      · exact (fillTables_05 emptyRecord now d).trans rfl
      · exact (fillTables_06 emptyRecord now d).trans rfl
      · exact absurd ⟨rfl, rfl, rfl⟩ h
      · exact (fillTables_08 emptyRecord now d).trans rfl
    · subst ht; subst hc
      interval_cases r
      · exact (fillTables_20 emptyRecord now d).trans rfl
      · exact (fillTables_21 emptyRecord now d).trans rfl
    · subst ht
      exact fillTables_t3_none emptyRecord now d rfl r c
  · exact fillTables_frame emptyRecord now d t r c hw

/-- C5 witness: on the empty record the date cell receives the current-date
string and an unrelated cell (table 1) keeps its template text. -/
theorem c5_date_redaction_cell_witness :
    (fill_suivi_formation emptyRecord "01/01/2026" docA).1 0 7 1 = "01/01/2026"
      ∧ (fill_suivi_formation emptyRecord "01/01/2026" docA).1 1 4 4 = docA 1 4 4 :=
  ⟨(c5_date_redaction_cell emptyRecord "01/01/2026" docA).1.trans rfl,
    (c5_date_redaction_cell emptyRecord "01/01/2026" docA).2 1 4 4 (by decide)⟩

/-- C6: when `affectation` is present with value `a`, the fill writes `a`
verbatim into both table 0 row 0 column 1 and table 0 row 1 column 1, so
those two cells hold identical text afterwards. -/
theorem c6_affectation_rows (rec : Record) (a : String) (h : rec.affectation = some a)
    (now : String) (d : Doc) :
    (fill_suivi_formation rec now d).1 0 0 1 = a
      ∧ (fill_suivi_formation rec now d).1 0 1 1 = a := by
  have h0 := fillTables_00 rec now d
  have h1 := fillTables_01 rec now d
  rw [h] at h0 h1
  exact ⟨h0.trans rfl, h1.trans rfl⟩

/-- C6 witness: `recordC3` has `affectation = "CAP 2 OLBER"`; rows 0 and 1
of table 0 both receive it. -/
theorem c6_affectation_rows_witness :
    (fill_suivi_formation recordC3 "26/03/2025" docA).1 0 0 1 = "CAP 2 OLBER"
      ∧ (fill_suivi_formation recordC3 "26/03/2025" docA).1 0 1 1 = "CAP 2 OLBER" :=
  c6_affectation_rows recordC3 "CAP 2 OLBER" rfl "26/03/2025" docA

/-- C7: the fill writes only inside the fixed cell set `writtenCell`
(table 0 rows 0–8 column 1, table 2 rows 0–1 column 1, table 3 rows 1–9
columns 0–2) — in particular never to table 1 — and every optional field
other than `date_redaction` that is absent leaves its own cell's template
text unchanged, including the per-learner sub-fields `nom`, `prenom`,
`observation` of each processed entry. -/
theorem c7_fixed_cells_and_absent_fields (rec : Record) (now : String) (d : Doc) :
    (∀ t r c, ¬ writtenCell t r c → (fill_suivi_formation rec now d).1 t r c = d t r c)
      ∧ (rec.affectation = none →
          (fill_suivi_formation rec now d).1 0 0 1 = d 0 0 1
            ∧ (fill_suivi_formation rec now d).1 0 1 1 = d 0 1 1)
      ∧ (rec.semaine = none → (fill_suivi_formation rec now d).1 0 2 1 = d 0 2 1)
      ∧ (rec.formateur = none → (fill_suivi_formation rec now d).1 0 3 1 = d 0 3 1)
      ∧ (rec.referent = none → (fill_suivi_formation rec now d).1 0 4 1 = d 0 4 1)
      ∧ (rec.horaires = none → (fill_suivi_formation rec now d).1 0 5 1 = d 0 5 1)
      ∧ (rec.numero_action = none → (fill_suivi_formation rec now d).1 0 6 1 = d 0 6 1)
      ∧ (rec.observations_groupe = none →
          (fill_suivi_formation rec now d).1 0 8 1 = d 0 8 1)
      ∧ (rec.themes_modules = none → (fill_suivi_formation rec now d).1 2 0 1 = d 2 0 1)
      ∧ (rec.previsions = none → (fill_suivi_formation rec now d).1 2 1 1 = d 2 1 1)
      ∧ (∀ l, rec.apprenants = some l → ∀ j (hj : j < l.length), j < 9 →
          ((l.get ⟨j, hj⟩).nom = none →
              (fill_suivi_formation rec now d).1 3 (j + 1) 0 = d 3 (j + 1) 0)
            ∧ ((l.get ⟨j, hj⟩).prenom = none →
              (fill_suivi_formation rec now d).1 3 (j + 1) 1 = d 3 (j + 1) 1)
            ∧ ((l.get ⟨j, hj⟩).observation = none →
              (fill_suivi_formation rec now d).1 3 (j + 1) 2 = d 3 (j + 1) 2)) := by
  refine ⟨fun t r c h => fillTables_frame rec now d t r c h,
    fun h => ?_, fun h => ?_, fun h => ?_, fun h => ?_, fun h => ?_, fun h => ?_,
    fun h => ?_, fun h => ?_, fun h => ?_, fun l hl j hj hj9 => ?_⟩
  · have h0 := fillTables_00 rec now d
    have h1 := fillTables_01 rec now d
    rw [h] at h0 h1
    exact ⟨h0, h1⟩
  · have h2 := fillTables_02 rec now d; rw [h] at h2; exact h2
  · have h3 := fillTables_03 rec now d; rw [h] at h3; exact h3
  · have h4 := fillTables_04 rec now d; rw [h] at h4; exact h4
  · have h5 := fillTables_05 rec now d; rw [h] at h5; exact h5
  · have h6 := fillTables_06 rec now d; rw [h] at h6; exact h6
  · have h8 := fillTables_08 rec now d; rw [h] at h8; exact h8
  · have h20 := fillTables_20 rec now d; rw [h] at h20; exact h20
  · have h21 := fillTables_21 rec now d; rw [h] at h21; exact h21
  · have hrow := fillTables_t3_row rec now d l hl j hj hj9
    refine ⟨fun hn => ?_, fun hp => ?_, fun ho => ?_⟩
    · have := hrow.1; rw [hn] at this; exact this
    · have := hrow.2.1; rw [hp] at this; exact this
    · have := hrow.2.2; rw [ho] at this; exact this

/-- C7 witness: on `recordC4` (only `apprenants` present, entry 1 lacking
`nom`), a table-1 cell is untouched, the absent `affectation` leaves its
cell untouched, and the absent `nom` of entry 1 leaves row 2 column 0
untouched. -/
theorem c7_fixed_cells_and_absent_fields_witness :
    (fill_suivi_formation recordC4 "26/03/2025" docA).1 1 0 1 = docA 1 0 1
      ∧ (fill_suivi_formation recordC4 "26/03/2025" docA).1 0 0 1 = docA 0 0 1
      ∧ (fill_suivi_formation recordC4 "26/03/2025" docA).1 3 2 0 = docA 3 2 0 := by
  refine ⟨?_, ?_, ?_⟩
  · exact (c7_fixed_cells_and_absent_fields recordC4 "26/03/2025" docA).1 1 0 1 (by decide)
  · exact ((c7_fixed_cells_and_absent_fields recordC4 "26/03/2025" docA).2.1 rfl).1
  · exact (((c7_fixed_cells_and_absent_fields recordC4 "26/03/2025" docA).2.2.2.2.2.2.2.2.2.2
      [apprA, apprB] rfl 1 (by decide) (by decide)).1 rfl)

/-- C8: a POST to `/fill-document` with an empty or missing body (parsed
body `none`) yields status 400 with the literal error
`Aucune donnée fournie`, whatever the filler would have produced — the
result is independent of the `filler` outcome, i.e. the Document Filler is
not invoked. -/
theorem c8_missing_body_400 (filler : Except PyError (String × String)) :
    fill_document none filler = Response.badRequest "Aucune donnée fournie"
      ∧ (fill_document none filler).status = 400 :=
  ⟨rfl, rfl⟩

/-- C9: every failure raised inside the `try` block of either handler is
caught and reported as status 500 with the exception's message in `error`
and its kind name in `type`; for the modelled missing-template failure the
message is non-empty.  Both handlers are total functions returning exactly
this response: nothing is retried and no file cleanup is performed. -/
theorem c9_catch_all_500 :
    (∀ (b : Json) (e : PyError), b.truthy = true →
        fill_document (some b) (Except.error e) = Response.serverError e.msg e.ty
          ∧ (fill_document (some b) (Except.error e)).status = 500)
      ∧ (∀ e : PyError, test_fill (Except.error e) = Response.serverError e.msg e.ty
          ∧ (test_fill (Except.error e)).status = 500)
      ∧ (∀ path : String, (templateOpenError path).msg ≠ ""
          ∧ (templateOpenError path).ty = "PackageNotFoundError") := by
  refine ⟨fun b e h => ?_, fun e => ⟨rfl, rfl⟩, fun path => ⟨fun hc => ?_, rfl⟩⟩
  · have hb : getJsonFalsy (some b) = false := by
      simp [getJsonFalsy, h]
    unfold fill_document
    rw [hb]
    exact ⟨rfl, rfl⟩
  · have hl := congrArg String.length hc
    rw [templateOpenError] at hl
    rw [String.length_append] at hl
    have h21 : ("Package not found at " : String).length = 21 := rfl
    have h0 : ("" : String).length = 0 := rfl
    omega

/-- C9 witness: a truthy body with a failing filler yields the 500
response carrying the exception's message and kind, and the modelled
missing-template error at the default template path has a non-empty
message. -/
theorem c9_catch_all_500_witness :
    fill_document (some (Json.str "x")) (Except.error ⟨"boom", "OSError"⟩)
        = Response.serverError "boom" "OSError"
      ∧ (templateOpenError "/templates/SUIVI_DE_FORMATION_VIERGE.docx").msg ≠ "" :=
  ⟨(c9_catch_all_500.1 (Json.str "x") ⟨"boom", "OSError"⟩ (by decide)).1,
    (c9_catch_all_500.2.2 "/templates/SUIVI_DE_FORMATION_VIERGE.docx").1⟩

/-- C10: a POST to `/fill-document` whose body parses to a falsy JSON
value — `{}`, `[]`, `false`, `0` or `null` — is answered exactly like a
missing body: status 400 with `Aucune donnée fournie`, independent of the
filler outcome (so the record is never passed to the Document Filler), and
literally the same response as for no body at all. -/
theorem c10_falsy_body_400 :
    (∀ j : Json, j.truthy = false → ∀ filler,
        fill_document (some j) filler = Response.badRequest "Aucune donnée fournie"
          ∧ fill_document (some j) filler = fill_document none filler)
      ∧ (∀ filler,
          fill_document (some (Json.obj [])) filler
              = Response.badRequest "Aucune donnée fournie"
            ∧ fill_document (some (Json.arr [])) filler
              = Response.badRequest "Aucune donnée fournie"
            ∧ fill_document (some (Json.bool false)) filler
              = Response.badRequest "Aucune donnée fournie"
            ∧ fill_document (some (Json.num 0)) filler
              = Response.badRequest "Aucune donnée fournie"
            ∧ fill_document (some Json.null) filler
              = Response.badRequest "Aucune donnée fournie") := by
  refine ⟨fun j h filler => ?_, fun filler => ⟨rfl, rfl, rfl, rfl, rfl⟩⟩
  have hb : getJsonFalsy (some j) = true := by simp [getJsonFalsy, h]
  unfold fill_document
  rw [hb]
  exact ⟨rfl, rfl⟩

/-- C10 witness: the empty JSON object with a would-be-successful filler
still gets the 400 missing-data response. -/
theorem c10_falsy_body_400_witness :
    fill_document (some (Json.obj [])) (Except.ok ("/tmp/f.docx", "f.docx"))
      = Response.badRequest "Aucune donnée fournie" :=
  (c10_falsy_body_400.1 (Json.obj []) (by decide)
    (Except.ok ("/tmp/f.docx", "f.docx"))).1
